import Mathlib

/-!
Shallow embedding of the `asd-aituber` API services
(`app/services/emotion_service.py`, `app/services/chat_service.py`,
`app/models/chat.py`) and proofs about them.

Python strings are modelled as Lean `String`; the Python substring test
`needle in hay` becomes `isSubstr`; `str.lower()` becomes a character-wise
`Char.toLower` map (all keywords involved are ASCII, where the two agree).
Randomness (`random.uniform`) is modelled by an explicit draw record with
range hypotheses; floats are modelled as exact rationals.  The mutable
message list of `ChatService` is threaded as explicit state; `uuid.uuid4()`
and `datetime.now()` are inputs from an environment record.
-/

namespace AsdAituber

/-- Emotion labels, in the declaration order of `Emotion` in `app/models/chat.py`. -/
inductive Emotion where
  | joy
  | anger
  | sadness
  | surprise
  | fear
  | disgust
  | neutral
deriving DecidableEq, Repr, Fintype

/-- The `.value` string of each `Emotion` member. -/
def Emotion.value : Emotion → String
  | .joy => "joy"
  | .anger => "anger"
  | .sadness => "sadness"
  | .surprise => "surprise"
  | .fear => "fear"
  | .disgust => "disgust"
  | .neutral => "neutral"

/-- `[e.value for e in Emotion]` iterates members in declaration order. -/
def allEmotions : List Emotion :=
  [.joy, .anger, .sadness, .surprise, .fear, .disgust, .neutral]

/-- `MessageRole` from `app/models/chat.py`. -/
inductive MessageRole where
  | user
  | assistant
  | system
deriving DecidableEq, Repr

/-- `ASDNTMode` from `app/models/chat.py`: `ASD` is the direct mode, `NT` the social mode. -/
inductive ASDNTMode where
  | asd
  | nt
deriving DecidableEq, Repr

/-- Python `needle in hay` on strings: substring occurrence test. -/
def isSubstr (needle hay : List Char) : Bool :=
  match hay with
  | [] => needle.isEmpty
  | c :: t => List.isPrefixOf needle (c :: t) || isSubstr needle t

/-- Python `text.lower()` restricted to character-wise lowering (exact on ASCII). -/
def lowerStr (s : String) : List Char :=
  s.toList.map Char.toLower

/-- `any(word in text_lower for word in words)`. -/
def anyWordIn (words : List String) (textLower : List Char) : Bool :=
  words.any fun w => isSubstr w.toList textLower

/-- Joy indicator keywords of `EmotionService.analyze_emotion`. -/
def joyWords : List String :=
  ["happy", "joy", "great", "wonderful", "amazing", "love", "excited"]

/-- Sadness indicator keywords. -/
def sadnessWords : List String :=
  ["sad", "sorry", "bad", "terrible", "awful", "cry", "hurt"]

/-- Anger indicator keywords. -/
def angerWords : List String :=
  ["angry", "mad", "furious", "hate", "stupid", "annoying"]

/-- Fear indicator keywords. -/
def fearWords : List String :=
  ["scared", "afraid", "worried", "anxious", "nervous", "fear"]

/-- Surprise indicator keywords. -/
def surpriseWords : List String :=
  ["wow", "amazing", "surprised", "unbelievable", "shocked"]

/-- Disgust indicator keywords. -/
def disgustWords : List String :=
  ["disgusting", "gross", "yuck", "terrible", "awful"]

/-- `EmotionService.analyze_emotion`: lower the text, test the keyword sets in
priority order, default to neutral. -/
def analyze_emotion (text : String) : Emotion :=
  let textLower := lowerStr text
  if anyWordIn joyWords textLower then .joy
  else if anyWordIn sadnessWords textLower then .sadness
  else if anyWordIn angerWords textLower then .anger
  else if anyWordIn fearWords textLower then .fear
  else if anyWordIn surpriseWords textLower then .surprise
  else if anyWordIn disgustWords textLower then .disgust
  else .neutral

/-- The keyword table in the priority order the spec states:
joy, sadness, anger, fear, surprise, disgust. -/
def priorityTable : List (Emotion × List String) :=
  [(.joy, joyWords), (.sadness, sadnessWords), (.anger, angerWords),
   (.fear, fearWords), (.surprise, surpriseWords), (.disgust, disgustWords)]

/-- The classifier as the spec words it: the label of the first keyword set in
`priorityTable` with a matching keyword, else neutral. -/
def specClassify (text : String) : Emotion :=
  let textLower := lowerStr text
  match priorityTable.find? (fun p => anyWordIn p.2 textLower) with
  | some p => p.1
  | none => .neutral

/-- The random draws consumed by `analyze_emotion_with_confidence`:
one `random.uniform(0.1, 0.3)` per emotion label and one
`random.uniform(0.7, 0.95)` for the detected emotion. -/
structure RandomDraws where
  base : Emotion → ℚ
  conf : ℚ

/-- The ranges `random.uniform` guarantees for the draws. -/
def RandomDraws.valid (r : RandomDraws) : Prop :=
  (∀ e, (1 : ℚ)/10 ≤ r.base e ∧ r.base e ≤ 3/10) ∧
    (7 : ℚ)/10 ≤ r.conf ∧ r.conf ≤ 19/20

instance (r : RandomDraws) : Decidable r.valid := by
  unfold RandomDraws.valid
  infer_instance

/-- The `scores` dict right after `scores[emotion.value] = confidence`:
an association list keyed by the emotion value strings, in dict insertion
order, with the detected emotion overwritten by the confidence draw. -/
def preScores (r : RandomDraws) (primary : Emotion) : List (String × ℚ) :=
  allEmotions.map fun e =>
    (e.value, if e = primary then r.conf else r.base e)

/-- `sum(scores.values())`. -/
def scoresTotal (r : RandomDraws) (primary : Emotion) : ℚ :=
  ((preScores r primary).map Prod.snd).sum

/-- `EmotionService.analyze_emotion_with_confidence`: classify, draw mock
scores, overwrite the detected label with a higher draw, normalize, and
return the label, the (pre-normalization) confidence draw, and the
normalized map. -/
def analyze_emotion_with_confidence (r : RandomDraws) (text : String) :
    Emotion × ℚ × List (String × ℚ) :=
  let emotion := analyze_emotion text
  let confidence := r.conf
  let total := scoresTotal r emotion
  let scores := (preScores r emotion).map fun p => (p.1, p.2 / total)
  (emotion, confidence, scores)

/-- `ChatMessage` from `app/models/chat.py`; `internal_emotion` defaults to
`None` when not passed. Timestamps are abstract `Nat` instants. -/
structure ChatMessage where
  id : String
  role : MessageRole
  content : String
  timestamp : Nat
  emotion : Emotion
  internal_emotion : Option Emotion := none
deriving DecidableEq, Repr

/-- `ChatMessageRequest` (the `mode` field defaults to `None`). -/
structure ChatMessageRequest where
  content : String
  emotion : Emotion := .neutral
  mode : Option ASDNTMode := none
deriving DecidableEq, Repr

/-- `ChatMessageResponse`. -/
structure ChatMessageResponse where
  message : String
  emotion : Emotion
  internal_emotion : Emotion
  timestamp : Nat
deriving DecidableEq, Repr

/-- The environment inputs of one `process_message` call: the two
`uuid.uuid4()` results and the two `datetime.now()` instants. -/
structure Env where
  userId : String
  aiId : String
  userTime : Nat
  aiTime : Nat
deriving DecidableEq, Repr

/-- The `responses` dict of `ChatService._generate_asd_response`, in
insertion order. -/
def asdResponses : List (String × String) :=
  [("hello", "Hello. How can I help you?"),
   ("how are you", "I am functioning normally. Thank you for asking."),
   ("what do you mean", "I mean exactly what I said. Could you be more specific about what part you don\x27t understand?"),
   ("thanks", "You\x27re welcome.")]

/-- `ChatService._generate_asd_response`: first trigger whose key occurs in
the lowered content wins; otherwise echo the content in a clarification
template. -/
def generate_asd_response (content : String) : String :=
  let contentLower := lowerStr content
  match asdResponses.find? (fun p => isSubstr p.1.toList contentLower) with
  | some p => p.2
  | none =>
      "I understand you said: \x27" ++ content ++
        "\x27. Could you please clarify what you would like me to do?"

/-- The `responses` dict of `ChatService._generate_nt_response`, in
insertion order. -/
def ntResponses : List (String × String) :=
  [("hello", "Hi there! Great to see you! How\x27s your day going?"),
   ("how are you", "I\x27m doing wonderful, thanks for asking! How about you?"),
   ("what do you mean", "Oh, I can see how that might be confusing! Let me explain it differently..."),
   ("thanks", "Aww, you\x27re so sweet! Happy to help anytime!")]

/-- `ChatService._generate_nt_response`: first trigger whose key occurs in
the lowered content wins; otherwise a fixed phrase. -/
def generate_nt_response (content : String) : String :=
  let contentLower := lowerStr content
  match ntResponses.find? (fun p => isSubstr p.1.toList contentLower) with
  | some p => p.2
  | none =>
      "That\x27s really interesting! I\x27d love to hear more about what you\x27re thinking."

/-- `ChatService._adjust_expressed_emotion`: NT-mode social masking. -/
def adjust_expressed_emotion (internal_emotion : Emotion) : Emotion :=
  if internal_emotion = .sadness then .neutral
  else if internal_emotion = .anger then .neutral
  else if internal_emotion = .fear then .neutral
  else internal_emotion

/-- The `response_text` computed by `process_message` for each mode. -/
def response_text_of (request : ChatMessageRequest) : ASDNTMode → String
  | .asd => generate_asd_response request.content
  | .nt => generate_nt_response request.content

/-- The `expressed_emotion` computed by `process_message`: the internal
emotion in ASD mode, the socially masked one in NT mode. -/
def expressed_emotion_of (request : ChatMessageRequest) : ASDNTMode → Emotion
  | .asd => analyze_emotion request.content
  | .nt => adjust_expressed_emotion (analyze_emotion request.content)

/-- The `user_message = ChatMessage(...)` record built by `process_message`;
no `internal_emotion` argument is passed, so it defaults to `None`. -/
def user_message_of (env : Env) (request : ChatMessageRequest) : ChatMessage :=
  { id := env.userId, role := .user, content := request.content,
    timestamp := env.userTime, emotion := request.emotion }

/-- The `ai_message = ChatMessage(...)` record built by `process_message`. -/
def ai_message_of (env : Env) (request : ChatMessageRequest)
    (mode : ASDNTMode) : ChatMessage :=
  { id := env.aiId, role := .assistant, content := response_text_of request mode,
    timestamp := env.aiTime, emotion := expressed_emotion_of request mode,
    internal_emotion := some (analyze_emotion request.content) }

/-- `ChatService.process_message`: append the user message, generate the
response and emotions according to the mode, append the assistant message,
return the new message log and the response. -/
def process_message (messages : List ChatMessage) (env : Env)
    (request : ChatMessageRequest) (mode : ASDNTMode) :
    List ChatMessage × ChatMessageResponse :=
  (messages ++ [user_message_of env request] ++ [ai_message_of env request mode],
   { message := response_text_of request mode,
     emotion := expressed_emotion_of request mode,
     internal_emotion := analyze_emotion request.content,
     timestamp := env.aiTime })

/-- `ChatService.get_history` returns (a copy of) the message log. -/
def get_history (messages : List ChatMessage) : List ChatMessage :=
  messages

/-- `ChatService.clear_history` empties the log and returns `True`. -/
def clear_history (_messages : List ChatMessage) :
    List ChatMessage × Bool :=
  ([], true)

/-- One external call on the `ChatService` state. -/
inductive Op where
  | proc (env : Env) (request : ChatMessageRequest) (mode : ASDNTMode)
  | clear

/-- Run a sequence of `process_message` and `clear_history` calls on a log. -/
def runOps (ops : List Op) (messages : List ChatMessage) :
    List ChatMessage :=
  match ops with
  | [] => messages
  | .proc env request mode :: rest =>
      runOps rest (process_message messages env request mode).1
  | .clear :: rest => runOps rest (clear_history messages).1

/-- A concrete admissible outcome of the random draws: every baseline draw
is 1/5 ∈ [0.1, 0.3] and the confidence draw is 4/5 ∈ [0.7, 0.95]. -/
def r0 : RandomDraws :=
  ⟨fun _ => 1/5, 4/5⟩

/- ### Helper lemmas -/

/-- The sum of the pre-normalization scores is at least 1.3 for admissible
draws: one draw is at least 0.7 and the six others at least 0.1 each. -/
lemma scoresTotal_lb (r : RandomDraws) (hv : r.valid) (e : Emotion) :
    13/10 ≤ scoresTotal r e := by
  obtain ⟨hb, hc1, hc2⟩ := hv
  have h1 := hb .joy
  have h2 := hb .anger
  have h3 := hb .sadness
  have h4 := hb .surprise
  have h5 := hb .fear
  have h6 := hb .disgust
  have h7 := hb .neutral
  cases e <;> simp [scoresTotal, preScores, allEmotions] <;> linarith

set_option maxHeartbeats 1000000 in
/-- Looking up the primary label in the normalized map yields the
confidence draw divided by the total. -/
lemma normScores_lookup (r : RandomDraws) (e : Emotion) :
    (((preScores r e).map fun p => (p.1, p.2 / scoresTotal r e)).lookup e.value) =
      some (r.conf / scoresTotal r e) := by
  cases e <;> rfl

set_option maxHeartbeats 1600000 in
/-- Every normalized score is strictly positive for admissible draws. -/
lemma normScores_pos (r : RandomDraws) (hv : r.valid) (e : Emotion) :
    ∀ p ∈ (preScores r e).map fun p => (p.1, p.2 / scoresTotal r e), 0 < p.2 := by
  have htpos : (0 : ℚ) < scoresTotal r e := by
    have := scoresTotal_lb r hv e
    linarith
  obtain ⟨hb, hc1, hc2⟩ := hv
  have h1 := hb .joy
  have h2 := hb .anger
  have h3 := hb .sadness
  have h4 := hb .surprise
  have h5 := hb .fear
  have h6 := hb .disgust
  have h7 := hb .neutral
  cases e <;> simp [preScores, allEmotions] <;>
    refine ⟨?_, ?_, ?_, ?_, ?_, ?_, ?_⟩ <;> apply div_pos <;> linarith

set_option maxHeartbeats 1600000 in
/-- The normalized scores sum to exactly 1 for admissible draws. -/
lemma normScores_sum (r : RandomDraws) (hv : r.valid) (e : Emotion) :
    (((preScores r e).map fun p => (p.1, p.2 / scoresTotal r e)).map Prod.snd).sum = 1 := by
  have htne : scoresTotal r e ≠ 0 := by
    have := scoresTotal_lb r hv e
    intro h
    rw [h] at this
    norm_num at this
  cases e <;> simp [preScores, allEmotions] <;> field_simp <;>
    simp [scoresTotal, preScores, allEmotions]

set_option maxHeartbeats 1600000 in
/-- Every normalized score is at most the primary label's normalized
score for admissible draws. -/
lemma normScores_le (r : RandomDraws) (hv : r.valid) (e : Emotion) :
    ∀ p ∈ (preScores r e).map fun p => (p.1, p.2 / scoresTotal r e),
      p.2 ≤ r.conf / scoresTotal r e := by
  have htpos : (0 : ℚ) < scoresTotal r e := by
    have := scoresTotal_lb r hv e
    linarith
  obtain ⟨hb, hc1, hc2⟩ := hv
  have h1 := hb .joy
  have h2 := hb .anger
  have h3 := hb .sadness
  have h4 := hb .surprise
  have h5 := hb .fear
  have h6 := hb .disgust
  have h7 := hb .neutral
  cases e <;> simp [preScores, allEmotions] <;>
    refine ⟨?_, ?_, ?_, ?_, ?_, ?_⟩ <;>
    rw [div_le_div_iff_of_pos_right htpos] <;> linarith

/-- A match on terrible or awful is in particular a sadness-set match,
since both words belong to the sadness keyword set. -/
lemma sadness_match_of_terrible_awful (t : List Char)
    (h : anyWordIn ["terrible", "awful"] t = true) :
    anyWordIn sadnessWords t = true := by
  simp [anyWordIn, sadnessWords] at h ⊢
  tauto

/-- When the disgust set matches but the sadness set does not, the match
is on disgusting, gross or yuck: the other two disgust keywords also
belong to the sadness set. -/
lemma disgust_match_narrow (t : List Char)
    (h6 : anyWordIn disgustWords t = true)
    (h2 : anyWordIn sadnessWords t = false) :
    anyWordIn ["disgusting", "gross", "yuck"] t = true := by
  simp_all [anyWordIn, disgustWords, sadnessWords]

/-- The message-log invariant of C8 is preserved by every run. -/
lemma runOps_preserves_inv (ops : List Op) (messages : List ChatMessage)
    (h : ∀ m ∈ messages,
      (m.role = .assistant → m.internal_emotion.isSome = true) ∧
      (m.role = .user → m.internal_emotion = none)) :
    ∀ m ∈ runOps ops messages,
      (m.role = .assistant → m.internal_emotion.isSome = true) ∧
      (m.role = .user → m.internal_emotion = none) := by
  induction ops generalizing messages with
  | nil => exact h
  | cons op rest ih =>
    cases op with
    | proc env request mode =>
      simp only [runOps]
      refine ih _ ?_
      intro m hm
      simp only [process_message, List.mem_append, List.mem_singleton] at hm
      rcases hm with (hm | rfl) | rfl
      · exact h m hm
      · exact ⟨by simp [user_message_of], by simp [user_message_of]⟩
      · exact ⟨by simp [ai_message_of], by simp [ai_message_of]⟩
    | clear =>
      simp only [runOps]
      refine ih _ ?_
      intro m hm
      simp [clear_history] at hm

/-- The concrete draw `r0` is admissible. -/
lemma r0_valid : r0.valid := by
  simp only [RandomDraws.valid, r0]
  norm_num

/- ### Claim theorems -/

/-- C1: for every input text the classifier lower-cases the text and tests
the fixed keyword sets in the exact priority order joy, sadness, anger,
fear, surprise, disgust, returning the label of the first set with some
keyword occurring as a substring of the lowered text (earliest set wins on
multiple matches), and neutral when no set matches: `analyze_emotion`
agrees with the first-match-in-priority-order classifier `specClassify`. -/
theorem analyze_emotion_eq_specClassify (text : String) :
    analyze_emotion text = specClassify text := by
  unfold analyze_emotion specClassify
  cases h1 : anyWordIn joyWords (lowerStr text) <;>
  cases h2 : anyWordIn sadnessWords (lowerStr text) <;>
  cases h3 : anyWordIn angerWords (lowerStr text) <;>
  cases h4 : anyWordIn fearWords (lowerStr text) <;>
  cases h5 : anyWordIn surpriseWords (lowerStr text) <;>
  cases h6 : anyWordIn disgustWords (lowerStr text) <;>
  simp [priorityTable, List.find?, h1, h2, h3, h4, h5, h6]

/-- C2 counterexample: on input "xyz" no trigger matches in either mode;
the direct-mode fallback contains the input verbatim, but the social-mode
fallback does not, refuting the claimed same fallback-echo policy. -/
theorem nt_fallback_does_not_echo_counterexample :
    isSubstr "xyz".toList (generate_asd_response "xyz").toList = true ∧
    isSubstr "xyz".toList (generate_nt_response "xyz").toList = false := by
  decide

/-- C2 amended: in social (NT) mode the lookup table has the same trigger
set as direct mode, and when no trigger matches the fallback reply is a
fixed phrase that does not mention the input content. -/
theorem nt_response_triggers_and_fixed_fallback (content : String) :
    ntResponses.map Prod.fst = asdResponses.map Prod.fst ∧
    ((∀ p ∈ ntResponses, isSubstr p.1.toList (lowerStr content) = false) →
      generate_nt_response content =
        "That\x27s really interesting! I\x27d love to hear more about what you\x27re thinking.") := by
  refine ⟨rfl, ?_⟩
  intro h
  have hfind :
      ntResponses.find? (fun p => isSubstr p.1.data (lowerStr content)) = none :=
    List.find?_eq_none.mpr fun p hp => by simpa using h p hp
  simp [generate_nt_response, hfind]

/-- C2 witness: the fallback on "xyz". -/
theorem nt_fallback_witness :
    generate_nt_response "xyz" =
      "That\x27s really interesting! I\x27d love to hear more about what you\x27re thinking." :=
  (nt_response_triggers_and_fixed_fallback "xyz").2 (by decide)

/-- C3 counterexample: for the admissible draw outcome `r0` on "happy",
the returned confidence (4/5) differs from the primary label\x27s value in
the returned normalized map (2/5). -/
theorem confidence_not_normalized_counterexample :
    r0.valid ∧
    (analyze_emotion_with_confidence r0 "happy").2.1 ≠
      (((analyze_emotion_with_confidence r0 "happy").2.2).lookup
        ((analyze_emotion_with_confidence r0 "happy").1).value).getD 0 := by
  refine ⟨r0_valid, ?_⟩
  have hE : analyze_emotion "happy" = .joy := by decide
  have hT : scoresTotal r0 Emotion.joy = 2 := by
    simp [scoresTotal, preScores, allEmotions, r0]
    norm_num
  simp only [analyze_emotion_with_confidence, hE]
  rw [normScores_lookup r0 .joy, Option.getD_some, hT]
  norm_num [r0]

/-- C3 amended: for every text and admissible draw outcome, the returned
confidence is the primary label\x27s pre-normalization score: it equals the
primary label\x27s normalized score multiplied by the pre-normalization
total, and always differs from the normalized score itself. -/
theorem confidence_is_prenormalized_score (text : String) (r : RandomDraws)
    (hv : r.valid) :
    (analyze_emotion_with_confidence r text).2.1 = r.conf ∧
    ∃ m, ((analyze_emotion_with_confidence r text).2.2).lookup
        ((analyze_emotion_with_confidence r text).1).value = some m ∧
      (analyze_emotion_with_confidence r text).2.1 =
        m * scoresTotal r (analyze_emotion_with_confidence r text).1 ∧
      (analyze_emotion_with_confidence r text).2.1 ≠ m := by
  have htot := scoresTotal_lb r hv (analyze_emotion text)
  have htpos : (0 : ℚ) < scoresTotal r (analyze_emotion text) := by linarith
  have htne : scoresTotal r (analyze_emotion text) ≠ 0 := ne_of_gt htpos
  have hconf : (7 : ℚ)/10 ≤ r.conf := hv.2.1
  simp only [analyze_emotion_with_confidence]
  refine ⟨?_, r.conf / scoresTotal r (analyze_emotion text),
    normScores_lookup r _, ?_, ?_⟩
  · trivial
  · exact (div_mul_cancel₀ r.conf htne).symm
  · intro hEq
    rw [eq_div_iff htne] at hEq
    have h2 : r.conf * (13/10) ≤ r.conf * scoresTotal r (analyze_emotion text) :=
      mul_le_mul_of_nonneg_left htot (by linarith)
    linarith

/-- C3 witness: the amended claim at the concrete draw `r0` and text
"happy", where the confidence equals the raw draw 4/5. -/
theorem confidence_prenormalized_witness :
    (analyze_emotion_with_confidence r0 "happy").2.1 = r0.conf :=
  (confidence_is_prenormalized_score "happy" r0 r0_valid).1

/-- C4: in social (NT) mode the expressed emotion is the masked internal
emotion: sadness, anger and fear map to neutral and every other internal
emotion passes through unchanged. -/
theorem nt_mode_masks_negative_emotions (messages : List ChatMessage)
    (env : Env) (request : ChatMessageRequest) :
    (process_message messages env request .nt).2.emotion =
      adjust_expressed_emotion
        (process_message messages env request .nt).2.internal_emotion ∧
    ((process_message messages env request .nt).2.internal_emotion = .sadness ∨
      (process_message messages env request .nt).2.internal_emotion = .anger ∨
      (process_message messages env request .nt).2.internal_emotion = .fear →
      (process_message messages env request .nt).2.emotion = .neutral) ∧
    (¬((process_message messages env request .nt).2.internal_emotion = .sadness ∨
        (process_message messages env request .nt).2.internal_emotion = .anger ∨
        (process_message messages env request .nt).2.internal_emotion = .fear) →
      (process_message messages env request .nt).2.emotion =
        (process_message messages env request .nt).2.internal_emotion) := by
  simp only [process_message, expressed_emotion_of]
  cases hE : analyze_emotion request.content <;>
    simp [adjust_expressed_emotion]

/-- C4 witness: processing "sad" in NT mode expresses neutral. -/
theorem nt_mode_masking_witness :
    (process_message [] ⟨"u", "a", 0, 1⟩ ⟨"sad", .neutral, none⟩ .nt).2.emotion =
      .neutral :=
  (nt_mode_masks_negative_emotions [] ⟨"u", "a", 0, 1⟩
    ⟨"sad", .neutral, none⟩).2.1 (Or.inl (by decide))

/-- C5: in direct (ASD) mode the expressed emotion always equals the
internal emotion, which is the classifier result on the request content;
masking never applies. -/
theorem asd_mode_no_masking (messages : List ChatMessage) (env : Env)
    (request : ChatMessageRequest) :
    (process_message messages env request .asd).2.emotion =
      (process_message messages env request .asd).2.internal_emotion ∧
    (process_message messages env request .asd).2.internal_emotion =
      analyze_emotion request.content :=
  ⟨rfl, rfl⟩

/-- C6: every `process_message` call appends exactly a user message
followed by an assistant message to the log, leaving the stored prefix
unchanged, so the history grows by exactly two entries. -/
theorem process_appends_user_then_assistant (messages : List ChatMessage)
    (env : Env) (request : ChatMessageRequest) (mode : ASDNTMode) :
    ∃ u a, (process_message messages env request mode).1 = messages ++ [u, a] ∧
      u.role = .user ∧ a.role = .assistant ∧
      (process_message messages env request mode).1.length =
        messages.length + 2 :=
  ⟨user_message_of env request, ai_message_of env request mode,
    by simp [process_message], rfl, rfl, by simp [process_message]⟩

/-- C7: for every text and admissible draw outcome, the returned scores
mapping has exactly 7 keys (the emotion labels in order), every value is
strictly positive, the values sum to exactly 1 (hence within tolerance
1e-6 of 1.0), and the primary label\x27s score is the maximum. -/
theorem confidence_scores_full_distribution (text : String)
    (r : RandomDraws) (hv : r.valid) :
    ((analyze_emotion_with_confidence r text).2.2).length = 7 ∧
    ((analyze_emotion_with_confidence r text).2.2).map Prod.fst =
      allEmotions.map Emotion.value ∧
    (∀ p ∈ (analyze_emotion_with_confidence r text).2.2, 0 < p.2) ∧
    (((analyze_emotion_with_confidence r text).2.2).map Prod.snd).sum = 1 ∧
    ∃ m,
      ((analyze_emotion_with_confidence r text).2.2).lookup
          ((analyze_emotion_with_confidence r text).1).value = some m ∧
        ∀ p ∈ (analyze_emotion_with_confidence r text).2.2, p.2 ≤ m := by
  simp only [analyze_emotion_with_confidence]
  exact ⟨by cases analyze_emotion text <;> simp [preScores, allEmotions],
    by cases analyze_emotion text <;> simp [preScores, allEmotions, Emotion.value],
    normScores_pos r hv _,
    normScores_sum r hv _,
    ⟨r.conf / scoresTotal r (analyze_emotion text),
      normScores_lookup r _, normScores_le r hv _⟩⟩

/-- C7 witness: for the concrete draw `r0` and the empty text, the
normalized scores sum to 1. -/
theorem confidence_scores_witness :
    (((analyze_emotion_with_confidence r0 "").2.2).map Prod.snd).sum = 1 :=
  (confidence_scores_full_distribution "" r0 r0_valid).2.2.2.1

/-- C8: in every message log reachable from the empty initial log by
`process_message` and `clear_history` calls, every assistant message has
`internal_emotion` set and every user message has it unset. -/
theorem history_internal_emotion_invariant (ops : List Op)
    (m : ChatMessage) (hm : m ∈ runOps ops []) :
    (m.role = .assistant → m.internal_emotion.isSome = true) ∧
    (m.role = .user → m.internal_emotion = none) :=
  runOps_preserves_inv ops [] (by simp) m hm

/-- C8 witness: the user message stored by one ASD-mode call on "hi" has
no internal emotion. -/
theorem history_invariant_witness :
    (⟨"u1", .user, "hi", 0, .neutral, none⟩ : ChatMessage).internal_emotion =
      none :=
  (history_internal_emotion_invariant
    [Op.proc ⟨"u1", "a1", 0, 1⟩ ⟨"hi", .neutral, none⟩ .asd]
    ⟨"u1", .user, "hi", 0, .neutral, none⟩ (by decide)).2 rfl

/-- C9: `clear_history` always returns true, truncates the log to empty
from any state, is idempotent, and a `get_history` right after it returns
the empty sequence. -/
theorem clear_history_empties_idempotent (messages : List ChatMessage) :
    (clear_history messages).2 = true ∧
    (clear_history messages).1 = [] ∧
    clear_history (clear_history messages).1 = clear_history messages ∧
    get_history (clear_history messages).1 = [] :=
  ⟨rfl, rfl, rfl, rfl⟩

/-- C10: `analyze_emotion` returns disgust only when the lowered text
contains disgusting, gross or yuck; a text containing terrible or awful is
never classified disgust, and is classified sadness as soon as no joy
keyword occurs, because those two words also belong to the
earlier-priority sadness set. -/
theorem disgust_requires_dedicated_keyword (text : String) :
    (analyze_emotion text = .disgust →
      anyWordIn ["disgusting", "gross", "yuck"] (lowerStr text) = true) ∧
    (anyWordIn ["terrible", "awful"] (lowerStr text) = true →
      analyze_emotion text ≠ .disgust ∧
        (anyWordIn joyWords (lowerStr text) = false →
          analyze_emotion text = .sadness)) := by
  constructor
  · intro hd
    simp only [analyze_emotion] at hd
    split_ifs at hd with h1 h2 h3 h4 h5 h6
    exact disgust_match_narrow (lowerStr text) h6 (by simpa using h2)
  · intro h
    have hs : anyWordIn sadnessWords (lowerStr text) = true :=
      sadness_match_of_terrible_awful _ h
    constructor
    · simp only [analyze_emotion]
      split_ifs <;> simp_all
    · intro hj
      simp [analyze_emotion, hj, hs]

/-- C10 witness: "awful" is classified sadness, not disgust. -/
theorem disgust_keyword_witness :
    analyze_emotion "awful" = .sadness :=
  ((disgust_requires_dedicated_keyword "awful").2 (by decide)).2 (by decide)

end AsdAituber
